import Mathlib

/-!
# Verification of the Xero account-transactions aggregation handler

A shallow embedding of `src/handlers/list-xero-account-transactions.handler.ts`.

Modelling conventions:
* JavaScript `T | null | undefined` values become `Option`;
  `a ?? b` becomes `Option.getD` / `Option.or`; optional chaining `a?.b`
  becomes `Option.bind`.
* JavaScript truthiness tests on strings (`if (s)`) become `strTruthy`
  (false exactly on `null`/`undefined`/`""`), and on optional arrays
  (`xs?.length`) become `optListNonempty`.
* Monetary amounts (`number`) are modelled as `Rat`; the floating-point
  rounding tolerance mentioned by the spec disappears: equalities are exact.
* Dates arrive from the SDK either as `Date` objects or strings; both are
  modelled by their ISO string, so `formatDate` keeps only the
  `substring(0, 10)` branch of the source.
* Each paginated endpoint is modelled as a pure function `Nat → List doc`
  giving the page contents the remote API would return for a page number;
  the pagination `while` loops become fuel recursion with fuel `MAX_PAGES`.
* Asynchronous outcomes (a settled promise) are modelled as
  `Except String`; `Promise.allSettled` in the orchestrator corresponds to
  passing each task's settled outcome as an argument.
-/

namespace XeroMcp

/-- JS string truthiness on a `string | null | undefined` value:
truthy iff present and non-empty. -/
def strTruthy : Option String → Bool
  | none => false
  | some s => s ≠ ""

/-- JS truthiness of `xs?.length` for an optional array:
truthy iff the array is present and non-empty. -/
def optListNonempty : Option (List String) → Bool
  | none => false
  | some l => l ≠ []

-- ---------------------------------------------------------------------------
-- Types (source: `AccountTransactionRow`, `AccountTransactionsResult`)
-- ---------------------------------------------------------------------------

structure AccountTransactionRow where
  date : String
  source : String
  contactName : Option String
  description : Option String
  invoiceNumber : Option String
  reference : Option String
  debit : Option Rat
  credit : Option Rat
  net : Option Rat
  gross : Option Rat
  vat : Option Rat
  accountCode : Option String
  accountName : Option String
  relatedAccount : Option String
deriving DecidableEq, Repr

structure AccountTransactionsResult where
  rows : List AccountTransactionRow
  hasMore : Bool
  nextOffset : Option Nat
  warnings : List String
deriving DecidableEq, Repr

/-- Source: `XeroClientResponse<T>` from `types/tool-response`. -/
structure XeroClientResponse (T : Type) where
  result : Option T
  isError : Bool
  error : Option String
deriving DecidableEq, Repr

-- ---------------------------------------------------------------------------
-- Constants
-- ---------------------------------------------------------------------------

def PAGE_SIZE : Nat := 100
def MJ_PAGE_SIZE : Nat := 1000
def MAX_PAGES : Nat := 50
def MAX_RETRIES : Nat := 5
def RETRY_BUFFER_MS : Int := 2000

-- ---------------------------------------------------------------------------
-- Helpers
-- ---------------------------------------------------------------------------

/-- Modelled from the spec: the out-of-scope failure formatting collaborator
(`formatError` from `helpers/format-error`, not part of the aggregation core);
represented as the identity on the failure's message string. -/
def formatError (e : String) : String := e

/-- Source: the response payload inspected by `getRetryAfterMs`
(`resp.statusCode` / `resp.status` / `resp.headers?.["retry-after"]`).
The `retry-after` header value is `none` when the headers object or the
key is absent. -/
structure ErrResponse where
  statusCode : Option Nat
  status : Option Nat
  retryAfter : Option String
deriving DecidableEq, Repr

/-- Source: the `unknown` error value thrown by the SDK. `parseXeroError`
(which JSON-decodes string payloads) is modelled post-decode: `response`
is the decoded `parsed?.response` field, `none` both for payloads without
a response object and for strings `JSON.parse` rejects (where
`parseXeroError` returns `null`). -/
structure XeroError where
  response : Option ErrResponse
  message : String
deriving DecidableEq, Repr

/-- JS `parseInt(s, 10)`: skip leading whitespace, optional sign, then the
longest digit prefix; `none` models `NaN` (no digits found). -/
def parseIntPrefix (s : String) : Option Int :=
  let cs := s.toList.dropWhile Char.isWhitespace
  match cs with
  | '-' :: rest => (digitPrefix rest).map (fun n => -(n : Int))
  | '+' :: rest => (digitPrefix rest).map (fun n => (n : Int))
  | rest => (digitPrefix rest).map (fun n => (n : Int))
where
  digitPrefix (cs : List Char) : Option Nat :=
    let ds := cs.takeWhile Char.isDigit
    if ds = [] then none
    else some (ds.foldl (fun a c => a * 10 + (c.toNat - '0'.toNat)) 0)

/-- Source: `getRetryAfterMs`. Extract retry-after milliseconds from a Xero
429 error response: `(retry-after seconds, defaulting to 60 when the header
is absent, empty, or unparsable) * 1000 + RETRY_BUFFER_MS`. -/
def getRetryAfterMs (error : XeroError) : Option Int :=
  match error.response with
  | none => none
  | some resp =>
    if resp.statusCode = some 429 ∨ resp.status = some 429 then
      let seconds : Int :=
        match resp.retryAfter with
        | none => 60
        | some ra =>
          if ra = "" then 60
          else match parseIntPrefix ra with
            | some n => n
            | none => 60
      some (seconds * 1000 + RETRY_BUFFER_MS)
    else none

/-- Source: the `for (let attempt = 0; ; attempt++)` loop body of `withRetry`,
with `fuel = MAX_RETRIES - attempt` (so `attempt < MAX_RETRIES` iff the fuel
is positive). `calls n` is the settled outcome of the `n`-th invocation of
`fn`; the second component accumulates the arguments passed to `sleep`. -/
def withRetryGo (calls : Nat → Except XeroError α) : Nat → Nat → Except XeroError α × Int
  | attempt, 0 => (calls attempt, 0)
  | attempt, fuel + 1 =>
    match calls attempt with
    | .ok v => (.ok v, 0)
    | .error err =>
      match getRetryAfterMs err with
      | some waitMs =>
        let rest := withRetryGo calls (attempt + 1) fuel
        (rest.1, waitMs + rest.2)
      | none => (.error err, 0)

/-- Source: `withRetry`. Retry a call on 429 rate-limit errors, sleeping the
computed backoff between attempts; returns the final outcome together with
the total milliseconds passed to `sleep`. -/
def withRetry (calls : Nat → Except XeroError α) : Except XeroError α × Int :=
  withRetryGo calls 0 MAX_RETRIES

/-- Source: `lineMatchesAccount`. Check if a line item's account matches the
filter criteria (JS truthiness guards included: an empty-string account
code or id never matches, and an absent or empty filter array counts as no
filter on that identifier). -/
def lineMatchesAccount (lineAccountCode lineAccountId : Option String)
    (filterCodes filterIds : Option (List String)) : Bool :=
  if optListNonempty filterCodes && strTruthy lineAccountCode
      && (filterCodes.getD []).contains (lineAccountCode.getD "") then true
  else if optListNonempty filterIds && strTruthy lineAccountId
      && (filterIds.getD []).contains (lineAccountId.getD "") then true
  else !optListNonempty filterCodes && !optListNonempty filterIds

/-- Source: `buildDateWhere`. (The numeric split of the ISO date is kept as
string pieces; the claims do not depend on this predicate's contents.) -/
def buildDateWhere (fromDate toDate : String) : String :=
  "Date>=DateTime(" ++ String.intercalate "," (fromDate.splitOn "-") ++ ")&&Date<=DateTime("
    ++ String.intercalate "," (toDate.splitOn "-") ++ ")"

/-- Source: `formatDate`. Normalise a date value to `YYYY-MM-DD`; `Date`
objects are modelled by their ISO string, absent values give `""`. -/
def formatDate : Option String → String
  | some s => s.take 10
  | none => ""

-- ---------------------------------------------------------------------------
-- SDK document shapes (the fields the handler reads)
-- ---------------------------------------------------------------------------

structure Contact where
  name : Option String
deriving DecidableEq, Repr

structure LineItem where
  description : Option String
  accountCode : Option String
  accountID : Option String
  lineAmount : Option Rat
  taxAmount : Option Rat
deriving DecidableEq, Repr

structure Invoice where
  type : Option String
  contact : Option Contact
  date : Option String
  invoiceNumber : Option String
  reference : Option String
  lineItems : Option (List LineItem)
deriving DecidableEq, Repr

structure CreditNote where
  type : Option String
  contact : Option Contact
  date : Option String
  creditNoteNumber : Option String
  reference : Option String
  lineItems : Option (List LineItem)
deriving DecidableEq, Repr

structure BankAccount where
  code : Option String
  name : Option String
  accountID : Option String
deriving DecidableEq, Repr

structure BankTransaction where
  type : Option String
  contact : Option Contact
  date : Option String
  reference : Option String
  bankAccount : Option BankAccount
  lineItems : Option (List LineItem)
  total : Option Rat
  subTotal : Option Rat
  totalTax : Option Rat
deriving DecidableEq, Repr

structure JournalLine where
  description : Option String
  accountCode : Option String
  accountID : Option String
  lineAmount : Option Rat
  taxAmount : Option Rat
deriving DecidableEq, Repr

structure ManualJournal where
  date : Option String
  narration : Option String
  journalLines : Option (List JournalLine)
deriving DecidableEq, Repr

structure Account where
  code : Option String
  name : Option String
deriving DecidableEq, Repr

-- ---------------------------------------------------------------------------
-- Account name lookup (source: `buildAccountNameMap`)
-- ---------------------------------------------------------------------------

/-- Source: `buildAccountNameMap` followed by `Map.get`: only accounts with a
truthy `code` are inserted (`if (acct.code)`), a later `set` on the same
code wins, and the stored name is `acct.name ?? ""`. -/
def buildAccountNameMap (accts : List Account) : String → Option String :=
  fun k =>
    ((accts.filter (fun a => strTruthy a.code && a.code == some k)).getLast?).map
      (fun a => a.name.getD "")

-- ---------------------------------------------------------------------------
-- Per-document row construction
-- ---------------------------------------------------------------------------

/-- Source: the row pushed per matching invoice line in `fetchInvoiceRows`. -/
def invoiceLineRow (inv : Invoice) (li : LineItem) : AccountTransactionRow :=
  let typeStr := inv.type.getD ""
  let isAccPay := typeStr == "ACCPAY"
  let lineAmt := li.lineAmount.getD 0
  let netToAccount := if isAccPay then lineAmt else -lineAmt
  let taxAmt := li.taxAmount.getD 0
  { date := formatDate inv.date
    source := if isAccPay then "Purchase Invoice" else "Sales Invoice"
    contactName := inv.contact.bind (·.name)
    description := li.description
    invoiceNumber := inv.invoiceNumber
    reference := inv.reference
    debit := if netToAccount > 0 then some netToAccount else none
    credit := if netToAccount < 0 then some |netToAccount| else none
    net := some lineAmt
    gross := some (lineAmt + taxAmt)
    vat := some taxAmt
    accountCode := li.accountCode
    accountName := none
    relatedAccount := none }

/-- Source: the `for (const li of inv.lineItems ?? [])` loop with its
`lineMatchesAccount` guard in `fetchInvoiceRows`. -/
def invoiceDocRows (accountCodes accountIds : Option (List String))
    (inv : Invoice) : List AccountTransactionRow :=
  ((inv.lineItems.getD []).filter
      (fun li => lineMatchesAccount li.accountCode li.accountID accountCodes accountIds)).map
    (invoiceLineRow inv)

/-- Source: the row pushed per matching credit-note line in
`fetchCreditNoteRows`. -/
def creditNoteLineRow (cn : CreditNote) (li : LineItem) : AccountTransactionRow :=
  let typeStr := cn.type.getD ""
  let isDebitToAccount := typeStr == "ACCRECCREDIT"
  let lineAmt := li.lineAmount.getD 0
  let netToAccount := if isDebitToAccount then lineAmt else -lineAmt
  let taxAmt := li.taxAmount.getD 0
  { date := formatDate cn.date
    source := if typeStr == "ACCPAYCREDIT" then "Purchase Credit Note" else "Sales Credit Note"
    contactName := cn.contact.bind (·.name)
    description := li.description
    invoiceNumber := cn.creditNoteNumber
    reference := cn.reference
    debit := if netToAccount > 0 then some netToAccount else none
    credit := if netToAccount < 0 then some |netToAccount| else none
    net := some lineAmt
    gross := some (lineAmt + taxAmt)
    vat := some taxAmt
    accountCode := li.accountCode
    accountName := none
    relatedAccount := none }

/-- Source: the line-item loop of `fetchCreditNoteRows`. -/
def creditNoteDocRows (accountCodes accountIds : Option (List String))
    (cn : CreditNote) : List AccountTransactionRow :=
  ((cn.lineItems.getD []).filter
      (fun li => lineMatchesAccount li.accountCode li.accountID accountCodes accountIds)).map
    (creditNoteLineRow cn)

/-- Source: the row pushed per matching non-bank line item in
`fetchBankTransactionRows` (the `bankAcctCode ? template.trim() : null`
related-account derivation included). -/
def bankLineRow (bt : BankTransaction) (li : LineItem) : AccountTransactionRow :=
  let typeStr := bt.type.getD ""
  let isSpend := typeStr == "SPEND"
  let bankAcctCode := bt.bankAccount.bind (·.code)
  let bankAcctName := bt.bankAccount.bind (·.name)
  let lineAmt := li.lineAmount.getD 0
  let netToAccount := if isSpend then lineAmt else -lineAmt
  let taxAmt := li.taxAmount.getD 0
  { date := formatDate bt.date
    source := if isSpend then "Spend Money" else "Receive Money"
    contactName := bt.contact.bind (·.name)
    description := li.description
    invoiceNumber := none
    reference := bt.reference
    debit := if netToAccount > 0 then some netToAccount else none
    credit := if netToAccount < 0 then some |netToAccount| else none
    net := some lineAmt
    gross := some (lineAmt + taxAmt)
    vat := some taxAmt
    accountCode := li.accountCode
    accountName := none
    relatedAccount :=
      if strTruthy bankAcctCode then
        some ((bankAcctCode.getD "" ++ " - " ++ bankAcctName.getD "").trim)
      else none }

/-- Source: the synthetic bank-account-side row of
`fetchBankTransactionRows` (emitted when the bank account itself matches
the filter). -/
def bankSideRow (bt : BankTransaction) : AccountTransactionRow :=
  let typeStr := bt.type.getD ""
  let isSpend := typeStr == "SPEND"
  let bankAcctCode := bt.bankAccount.bind (·.code)
  let bankAcctName := bt.bankAccount.bind (·.name)
  let totalAmount := bt.total.getD 0
  let subTotal := bt.subTotal.getD 0
  let totalTax := bt.totalTax.getD 0
  let netToAccount := if isSpend then -totalAmount else totalAmount
  { date := formatDate bt.date
    source := if isSpend then "Spend Money" else "Receive Money"
    contactName := bt.contact.bind (·.name)
    description :=
      match bt.lineItems with
      | none => none
      | some lis =>
        some (String.intercalate "; "
          (lis.filterMap (fun l =>
            match l.description with
            | some d => if d = "" then none else some d
            | none => none)))
    invoiceNumber := none
    reference := bt.reference
    debit := if netToAccount > 0 then some netToAccount else none
    credit := if netToAccount < 0 then some |netToAccount| else none
    net := some subTotal
    gross := some totalAmount
    vat := some totalTax
    accountCode := bankAcctCode
    accountName := bankAcctName
    relatedAccount := (bt.lineItems.getD []).head?.bind (·.accountCode) }

/-- Source: the per-transaction body of `fetchBankTransactionRows`:
rows for matching non-bank line items, then the synthetic bank-side row
when the bank account identifier matches the filter. -/
def bankDocRows (accountCodes accountIds : Option (List String))
    (bt : BankTransaction) : List AccountTransactionRow :=
  (((bt.lineItems.getD []).filter
      (fun li => lineMatchesAccount li.accountCode li.accountID accountCodes accountIds)).map
    (bankLineRow bt)) ++
  (if lineMatchesAccount (bt.bankAccount.bind (·.code)) (bt.bankAccount.bind (·.accountID))
      accountCodes accountIds then
    [bankSideRow bt]
  else [])

/-- Source: the row pushed per matching journal line in
`fetchManualJournalRows` (positive `lineAmount` = debit, negative = credit). -/
def mjLineRow (mj : ManualJournal) (relatedAccount : Option String)
    (line : JournalLine) : AccountTransactionRow :=
  let amt := line.lineAmount.getD 0
  let taxAmt := line.taxAmount.getD 0
  { date := formatDate mj.date
    source := "Manual Journal"
    contactName := none
    description := line.description.or mj.narration
    invoiceNumber := none
    reference := mj.narration
    debit := if amt > 0 then some amt else none
    credit := if amt < 0 then some |amt| else none
    net := some amt
    gross := some (amt + taxAmt)
    vat := some taxAmt
    accountCode := line.accountCode
    accountName := none
    relatedAccount := relatedAccount }

/-- Source: the per-journal body of `fetchManualJournalRows`: split the
lines into matching and non-matching, derive `relatedAccount` from the
first non-matching line (`(otherLines[0].accountCode ?? "").trim()`), and
emit one row per matching line. -/
def mjDocRows (accountCodes accountIds : Option (List String))
    (mj : ManualJournal) : List AccountTransactionRow :=
  let allLines := mj.journalLines.getD []
  let matchingLines := allLines.filter
    (fun l => lineMatchesAccount l.accountCode l.accountID accountCodes accountIds)
  let otherLines := allLines.filter
    (fun l => !lineMatchesAccount l.accountCode l.accountID accountCodes accountIds)
  let relatedAccount :=
    match otherLines with
    | [] => none
    | l0 :: _ => some ((l0.accountCode.getD "").trim)
  matchingLines.map (mjLineRow mj relatedAccount)

-- ---------------------------------------------------------------------------
-- Pagination loops
-- ---------------------------------------------------------------------------

/-- Source: the shared `while (page <= MAX_PAGES)` shape of
`fetchInvoiceRows` / `fetchCreditNoteRows` / `fetchBankTransactionRows`:
fetch a page of documents, emit rows for each, stop on a short page.
`fuel = MAX_PAGES + 1 - page` counts the remaining loop iterations. -/
def fetchLoop (getPage : Nat → List D) (docRows : D → List AccountTransactionRow)
    (pageSize : Nat) : Nat → Nat → List AccountTransactionRow
  | _, 0 => []
  | page, fuel + 1 =>
    let docs := getPage page
    let rows := docs.flatMap docRows
    if docs.length < pageSize then rows
    else rows ++ fetchLoop getPage docRows pageSize (page + 1) fuel

/-- Source: `fetchInvoiceRows`. The `getPage` argument models the
`getInvoices` endpoint's response (page contents per page number). -/
def fetchInvoiceRows (getPage : Nat → List Invoice)
    (accountCodes accountIds : Option (List String))
    (sourceType : Option String) : List AccountTransactionRow :=
  if strTruthy sourceType && sourceType != some "ACCREC" && sourceType != some "ACCPAY" then []
  else fetchLoop getPage (invoiceDocRows accountCodes accountIds) PAGE_SIZE 1 MAX_PAGES

/-- Source: `fetchCreditNoteRows`, over the `getCreditNotes` endpoint. -/
def fetchCreditNoteRows (getPage : Nat → List CreditNote)
    (accountCodes accountIds : Option (List String))
    (sourceType : Option String) : List AccountTransactionRow :=
  if strTruthy sourceType && sourceType != some "ACCRECCREDIT"
      && sourceType != some "ACCPAYCREDIT" then []
  else fetchLoop getPage (creditNoteDocRows accountCodes accountIds) PAGE_SIZE 1 MAX_PAGES

/-- Source: `fetchBankTransactionRows`, over the `getBankTransactions`
endpoint. -/
def fetchBankTransactionRows (getPage : Nat → List BankTransaction)
    (accountCodes accountIds : Option (List String))
    (sourceType : Option String) : List AccountTransactionRow :=
  if strTruthy sourceType && sourceType != some "CASHREC" && sourceType != some "CASHPAID" then []
  else fetchLoop getPage (bankDocRows accountCodes accountIds) PAGE_SIZE 1 MAX_PAGES

/-- Source: `FetchResult` (manual-journal path only). -/
structure FetchResult where
  rows : List AccountTransactionRow
  truncated : Bool
  scanned : Nat
deriving DecidableEq, Repr

/-- Source: the `while (page <= MAX_PAGES)` loop of
`fetchManualJournalRows`, which also accumulates `totalScanned` and, on
fuel exhaustion (`page > MAX_PAGES`), reports `truncated = true`. -/
def mjLoop (getPage : Nat → List ManualJournal)
    (accountCodes accountIds : Option (List String)) :
    Nat → Nat → FetchResult
  | _, 0 => { rows := [], truncated := true, scanned := 0 }
  | page, fuel + 1 =>
    let journals := getPage page
    let rows := journals.flatMap (mjDocRows accountCodes accountIds)
    if journals.length < MJ_PAGE_SIZE then
      { rows := rows, truncated := false, scanned := journals.length }
    else
      let rest := mjLoop getPage accountCodes accountIds (page + 1) fuel
      { rows := rows ++ rest.rows, truncated := rest.truncated,
        scanned := journals.length + rest.scanned }

/-- Source: `fetchManualJournalRows`, over the `getManualJournals`
endpoint. -/
def fetchManualJournalRows (getPage : Nat → List ManualJournal)
    (accountCodes accountIds : Option (List String))
    (sourceType : Option String) : FetchResult :=
  if strTruthy sourceType && sourceType != some "MANJOURNAL" then
    { rows := [], truncated := false, scanned := 0 }
  else mjLoop getPage accountCodes accountIds 1 MAX_PAGES

-- ---------------------------------------------------------------------------
-- Enrichment, sorting, and the orchestrator (source: `listXeroAccountTransactions`)
-- ---------------------------------------------------------------------------

/-- Does the string contain the `" - "` separator
(source: `row.relatedAccount.includes(" - ")`)? -/
def containsSep (s : String) : Bool :=
  decide (List.IsInfix (" - ".toList) s.toList)

/-- Source: the per-row enrichment pass of `listXeroAccountTransactions`:
fill `accountName` from the lookup map when the row has a truthy account
code and a falsy account name, then append `" - name"` to a truthy bare
`relatedAccount` code that resolves to a truthy name. -/
def enrichRow (get : String → Option String) (row : AccountTransactionRow) :
    AccountTransactionRow :=
  let row1 :=
    if strTruthy row.accountCode && !strTruthy row.accountName then
      { row with accountName := get (row.accountCode.getD "") }
    else row
  if strTruthy row1.relatedAccount && !containsSep (row1.relatedAccount.getD "") then
    match get (row1.relatedAccount.getD "") with
    | some name =>
      if name ≠ "" then
        { row1 with relatedAccount := some (row1.relatedAccount.getD "" ++ " - " ++ name) }
      else row1
    | none => row1
  else row1

/-- Source: `allRows.sort((a, b) => b.date.localeCompare(a.date))` — a
stable sort into date-descending order, modelled by `mergeSort` (stable)
with the matching boolean relation. -/
def sortRows (rows : List AccountTransactionRow) : List AccountTransactionRow :=
  rows.mergeSort (fun a b => decide (b.date ≤ a.date))

/-- Source: the manual-journal truncation warning string pushed by
`listXeroAccountTransactions`. -/
def mjTruncWarning (scanned : Nat) : String :=
  "Manual Journals results may be incomplete: scanned " ++ toString scanned
    ++ " journals but hit the pagination limit. Try narrowing the date range for complete results."

/-- Source: `listXeroAccountTransactions`. The settled outcome of each of
the five `Promise.allSettled` tasks (invoices, credit notes, account-name
lookup, bank transactions, manual journals) and of `authenticate()` is
passed in as an `Except`; the body reproduces the warning accumulation,
row flattening, enrichment, sort, and envelope construction. -/
def listXeroAccountTransactions (auth : Except String Unit)
    (invRes cnRes : Except String (List AccountTransactionRow))
    (acctRes : Except String (List Account))
    (btRes : Except String (List AccountTransactionRow))
    (mjRes : Except String FetchResult) :
    XeroClientResponse AccountTransactionsResult :=
  match auth with
  | .error e => { result := none, isError := true, error := some (formatError e) }
  | .ok _ =>
    let invWarn : List String :=
      match invRes with
      | .ok _ => []
      | .error r => ["Invoices endpoint failed: " ++ formatError r]
    let invRows := match invRes with | .ok rs => rs | .error _ => []
    let cnWarn : List String :=
      match cnRes with
      | .ok _ => []
      | .error r => ["Credit Notes endpoint failed: " ++ formatError r]
    let cnRows := match cnRes with | .ok rs => rs | .error _ => []
    let acctWarn : List String :=
      match acctRes with
      | .ok _ => []
      | .error r => ["Account name lookup failed: " ++ formatError r]
    let get := match acctRes with
      | .ok accts => buildAccountNameMap accts
      | .error _ => fun _ => none
    let btWarn : List String :=
      match btRes with
      | .ok _ => []
      | .error r => ["Bank Transactions endpoint failed: " ++ formatError r]
    let btRows := match btRes with | .ok rs => rs | .error _ => []
    let mjWarn : List String :=
      match mjRes with
      | .ok fr => if fr.truncated then [mjTruncWarning fr.scanned] else []
      | .error r => ["Manual Journals endpoint failed: " ++ formatError r]
    let mjRows := match mjRes with | .ok fr => fr.rows | .error _ => []
    let warnings := invWarn ++ cnWarn ++ acctWarn ++ btWarn ++ mjWarn
    let allRows := invRows ++ cnRows ++ btRows ++ mjRows
    let sorted := sortRows (allRows.map (enrichRow get))
    { result := some { rows := sorted, hasMore := false, nextOffset := none, warnings := warnings }
      isError := false
      error := none }

-- ---------------------------------------------------------------------------
-- Invariant predicates under verification
-- ---------------------------------------------------------------------------

/-- The row invariant of the spec: `gross = net + vat`, and whenever
`net ≠ 0` exactly one of `debit`/`credit` is set, positive, with magnitude
`|netToAccount|` — observable on the row as `|net|` (per-line rows) or
`|gross|` (the bank-account-side synthetic row). -/
def rowOk (r : AccountTransactionRow) : Prop :=
  (∀ n v, r.net = some n → r.vat = some v → r.gross = some (n + v)) ∧
  (∀ n, r.net = some n → n ≠ 0 →
    (∃ d, r.debit = some d ∧ 0 < d ∧ r.credit = none ∧
      (d = |n| ∨ ∃ g, r.gross = some g ∧ d = |g|)) ∨
    (∃ c, r.credit = some c ∧ 0 < c ∧ r.debit = none ∧
      (c = |n| ∨ ∃ g, r.gross = some g ∧ c = |g|)))

/-- Consistency of a bank transaction's totals (a property of the upstream
data, not enforced by the handler): the total is subtotal plus tax, and a
nonzero subtotal comes with a nonzero total. -/
def btWellFormed (bt : BankTransaction) : Prop :=
  bt.total.getD 0 = bt.subTotal.getD 0 + bt.totalTax.getD 0 ∧
  (bt.subTotal.getD 0 ≠ 0 → bt.total.getD 0 ≠ 0)

-- ---------------------------------------------------------------------------
-- Concrete instances used by counterexamples and witnesses
-- ---------------------------------------------------------------------------

/-- A SPEND bank transaction whose totals are inconsistent with the row
invariant: `total = 0` while `subTotal = 5` (`totalTax = -5`). -/
def c1BadBt : BankTransaction :=
  { type := some "SPEND", contact := none, date := some "2024-05-01", reference := none
    bankAccount := some { code := some "090", name := some "Business Account", accountID := none }
    lineItems := some [], total := some 0, subTotal := some 5, totalTax := some (-5) }

def c1BadPage : Nat → List BankTransaction := fun p => if p = 1 then [c1BadBt] else []

/-- The line item of the spec's bank-side example: account `"400"`,
`lineAmount = 100`. -/
def c2Line : LineItem :=
  { description := some "supplies", accountCode := some "400", accountID := none
    lineAmount := some 100, taxAmount := some 0 }

/-- The spec's bank-side example transaction: SPEND, `total = 100`, bank
account `"090"`, one line item on account `"400"`. -/
def c2Bt : BankTransaction :=
  { type := some "SPEND", contact := none, date := some "2024-05-01", reference := none
    bankAccount := some { code := some "090", name := some "Business Account", accountID := none }
    lineItems := some [c2Line], total := some 100, subTotal := some 100, totalTax := some 0 }

def c2Page : Nat → List BankTransaction := fun p => if p = 1 then [c2Bt] else []

/-- A manual journal with no lines, used to fill full pages. -/
def blankMJ : ManualJournal := { date := none, narration := none, journalLines := none }

/-- An endpoint holding 51 consecutive full pages of 1000 journals each. -/
def mjPage51 : Nat → List ManualJournal :=
  fun p => if p ≤ 51 then List.replicate 1000 blankMJ else []

/-- A 429 rate-limit error with `retry-after: 5`. -/
def rateLimited5 : XeroError :=
  { response := some { statusCode := some 429, status := none, retryAfter := some "5" }
    message := "rate limited" }

/-- A failure with no rate-limit signal. -/
def plainFailure : XeroError := { response := none, message := "boom" }

/-- A one-page invoice endpoint with a single ACCPAY invoice on account
`"400"`, used to exercise the empty-string source-type filter. -/
def c9Invoice : Invoice :=
  { type := some "ACCPAY", contact := none, date := some "2024-05-01"
    invoiceNumber := some "INV-1", reference := none
    lineItems := some [{ description := none, accountCode := some "400", accountID := none
                         lineAmount := some 10, taxAmount := some 2 }] }

def c9Page : Nat → List Invoice := fun p => if p = 1 then [c9Invoice] else []

/-- The matching line of [c10Mj] (account `"200"`). -/
def c10MatchLine : JournalLine :=
  { description := none, accountCode := some "200", accountID := none
    lineAmount := some 50, taxAmount := some 0 }

/-- The non-matching, code-less line of [c10Mj]. -/
def c10OtherLine : JournalLine :=
  { description := none, accountCode := none, accountID := none
    lineAmount := some (-50), taxAmount := some 0 }

/-- A manual journal whose first non-matching line has no account code:
line on `"200"` matches the filter `["200"]`, the other line has
`accountCode = none`. -/
def c10Mj : ManualJournal :=
  { date := some "2024-06-01", narration := some "accrual"
    journalLines := some [c10MatchLine, c10OtherLine] }

/-- A line item with positive amount for the sign-rule witnesses. -/
def c3Line : LineItem :=
  { description := some "widgets", accountCode := some "400", accountID := none
    lineAmount := some 10, taxAmount := some 2 }

def c3InvRec : Invoice :=
  { type := some "ACCREC", contact := none, date := some "2024-05-02"
    invoiceNumber := some "INV-2", reference := none, lineItems := some [c3Line] }

def c3CnRec : CreditNote :=
  { type := some "ACCRECCREDIT", contact := none, date := some "2024-05-03"
    creditNoteNumber := some "CN-1", reference := none, lineItems := some [c3Line] }

def c3CnPay : CreditNote :=
  { type := some "ACCPAYCREDIT", contact := none, date := some "2024-05-04"
    creditNoteNumber := some "CN-2", reference := none, lineItems := some [c3Line] }

/-- Three one-row sources with the spec's example dates, for the sort-order
witness. -/
def dateRow (d : String) : AccountTransactionRow :=
  { date := d, source := "Manual Journal", contactName := none, description := none
    invoiceNumber := none, reference := none, debit := some 1, credit := none
    net := some 1, gross := some 1, vat := some 0, accountCode := none
    accountName := none, relatedAccount := none }

-- ---------------------------------------------------------------------------
-- Theorems
-- ---------------------------------------------------------------------------

/-- C2: for a SPEND bank transaction with `total = 100`, bank account code
`"090"` matching the account filter, and one line item on account `"400"`
with `lineAmount = 100`, the bank-transaction extractor emits exactly two
rows: one for account `400` with `debit = 100` (credit null) and one for
account `090` with `credit = 100` (debit null) and `relatedAccount "400"`
(the first line item's account code); both the per-line row and the
bank-side synthetic row fire for the same transaction. -/
theorem c2_bank_side_synthetic_row :
    fetchBankTransactionRows c2Page (some ["090", "400"]) none none =
      [ { date := "2024-05-01", source := "Spend Money", contactName := none
          description := some "supplies", invoiceNumber := none, reference := none
          debit := some 100, credit := none, net := some 100, gross := some 100, vat := some 0
          accountCode := some "400", accountName := none
          relatedAccount := some "090 - Business Account" }
      , { date := "2024-05-01", source := "Spend Money", contactName := none
          description := some "supplies", invoiceNumber := none, reference := none
          debit := none, credit := some 100, net := some 100, gross := some 100, vat := some 0
          accountCode := some "090", accountName := some "Business Account"
          relatedAccount := some "400" } ] := by
  with_unfolding_all decide

/-- C7 counterexample: the account matcher is not a pure membership test.
A line whose account code is the empty string `""` is a member of the
filter set `[""]`, yet the matcher returns `false` (the JS truthiness
guard `lineAccountCode &&` rejects empty strings). -/
theorem c7_counterexample :
    lineMatchesAccount (some "") none (some [""]) none = false ∧ "" ∈ [""] := by
  decide

/-- C7 (amended): the account matcher returns true iff the line's code is
present, non-empty, and a member of a non-empty code filter, or the line's
id is present, non-empty, and a member of a non-empty id filter, or both
filter sets are absent/empty (pass-through); in all other cases false. -/
theorem c7_amended (code id : Option String) (codes ids : Option (List String)) :
    lineMatchesAccount code id codes ids = true ↔
      (optListNonempty codes = true ∧ strTruthy code = true ∧ code.getD "" ∈ codes.getD []) ∨
      (optListNonempty ids = true ∧ strTruthy id = true ∧ id.getD "" ∈ ids.getD []) ∨
      (optListNonempty codes = false ∧ optListNonempty ids = false) := by
  unfold lineMatchesAccount
  split_ifs with h1 h2
  · simp only [Bool.and_eq_true, List.contains_eq_any_beq, List.any_eq_true, beq_iff_eq] at h1
    obtain ⟨⟨hc, ht⟩, x, hx, hxe⟩ := h1
    simp only [true_iff]
    exact Or.inl ⟨hc, ht, hxe ▸ hx⟩
  · simp only [Bool.and_eq_true, List.contains_eq_any_beq, List.any_eq_true, beq_iff_eq] at h2
    obtain ⟨⟨hc, ht⟩, x, hx, hxe⟩ := h2
    simp only [true_iff]
    exact Or.inr (Or.inl ⟨hc, ht, hxe ▸ hx⟩)
  · constructor
    · intro h
      simp only [Bool.and_eq_true, Bool.not_eq_true'] at h
      exact Or.inr (Or.inr h)
    · rintro (⟨hc, ht, hm⟩ | ⟨hc, ht, hm⟩ | hboth)
      · refine absurd ?_ h1
        simp only [Bool.and_eq_true, List.contains_eq_any_beq, List.any_eq_true, beq_iff_eq]
        exact ⟨⟨hc, ht⟩, _, hm, rfl⟩
      · refine absurd ?_ h2
        simp only [Bool.and_eq_true, List.contains_eq_any_beq, List.any_eq_true, beq_iff_eq]
        exact ⟨⟨hc, ht⟩, _, hm, rfl⟩
      · simp only [Bool.and_eq_true, Bool.not_eq_true']
        exact hboth

/-- C4 counterexample: with 51 consecutive full pages of 1000 journals
each, the loop (`while page <= MAX_PAGES`, `MAX_PAGES = 50`) fetches only
pages 1–50, so the scanned count is 50000, not 51000: the result is
truncated but the single truncation warning does not mention 51000. -/
theorem c4_counterexample :
    (fetchManualJournalRows mjPage51 none none none).truncated = true ∧
    (fetchManualJournalRows mjPage51 none none none).scanned = 50000 ∧
    ((listXeroAccountTransactions (.ok ()) (.ok []) (.ok []) (.ok []) (.ok [])
        (.ok (fetchManualJournalRows mjPage51 none none none))).result.map
      AccountTransactionsResult.warnings) = some [mjTruncWarning 50000] ∧
    ¬ List.IsInfix "51000".toList (mjTruncWarning 50000).toList := by
  set_option maxRecDepth 1000000 in with_unfolding_all decide

/-- C4 (amended): if the manual-journal endpoint yields 51 consecutive
full pages of 1000 journals each, the extractor's result has
`truncated = true` and the aggregation's warning includes the scanned
count 50000 (the journals returned by the 50 pages fetched before the
page cap ended the loop) and recommends a narrower range. -/
theorem c4_truncation_warning :
    (fetchManualJournalRows mjPage51 none none none).truncated = true ∧
    ((listXeroAccountTransactions (.ok ()) (.ok []) (.ok []) (.ok []) (.ok [])
        (.ok (fetchManualJournalRows mjPage51 none none none))).result.map
      AccountTransactionsResult.warnings) =
      some ["Manual Journals results may be incomplete: scanned 50000 journals but hit the pagination limit. Try narrowing the date range for complete results."] := by
  set_option maxRecDepth 1000000 in with_unfolding_all decide

/-- Unfolding `withRetryGo` when the current attempt succeeds. -/
theorem withRetryGo_ok {calls : Nat → Except XeroError α} {attempt fuel : Nat} {v : α}
    (h : calls attempt = .ok v) : withRetryGo calls attempt fuel = (.ok v, 0) := by
  cases fuel <;> simp [withRetryGo, h]

/-- Unfolding `withRetryGo` when the current attempt fails without a
rate-limit signal: the error propagates unchanged, with no sleep. -/
theorem withRetryGo_stop {calls : Nat → Except XeroError α} {attempt fuel : Nat} {err : XeroError}
    (h : calls attempt = .error err) (hw : getRetryAfterMs err = none) :
    withRetryGo calls attempt fuel = (.error err, 0) := by
  cases fuel <;> simp [withRetryGo, h, hw]

/-- Unfolding one rate-limited retry step of `withRetryGo`. -/
theorem withRetryGo_retry {calls : Nat → Except XeroError α} {attempt fuel : Nat}
    {err : XeroError} {w : Int} {res : Except XeroError α × Int}
    (h : calls attempt = .error err) (hw : getRetryAfterMs err = some w)
    (hrest : withRetryGo calls (attempt + 1) fuel = res) :
    withRetryGo calls attempt (fuel + 1) = (res.1, w + res.2) := by
  simp [withRetryGo, h, hw, hrest]

/-- When every relevant attempt fails rate-limited, the loop burns all its
fuel, sleeping once per retry, and rethrows the last error. -/
theorem withRetryGo_exhaust {calls : Nat → Except XeroError α} {err : XeroError} {w : Int}
    (hw : getRetryAfterMs err = some w) :
    ∀ (fuel attempt : Nat), (∀ i, attempt ≤ i → i ≤ attempt + fuel → calls i = .error err) →
      withRetryGo calls attempt fuel = (.error err, (fuel : Int) * w)
  | 0, attempt, h => by
    simp [withRetryGo, h attempt le_rfl (by omega)]
  | fuel + 1, attempt, h => by
    have ih := withRetryGo_exhaust hw fuel (attempt + 1)
      (fun i h1 h2 => h i (by omega) (by omega))
    rw [withRetryGo_retry (h attempt le_rfl (by omega)) hw ih]
    simp only [Prod.mk.injEq]
    refine ⟨trivial, ?_⟩
    push_cast
    ring

/-- C6: a 429 failure is retried after sleeping
`(retry-after seconds, defaulting to 60 when the header is absent or
unparsable) * 1000 + 2000` ms, up to 5 retries: with a first call failing
429 `retry-after: 5` and a second call succeeding, the wrapper sleeps
exactly 7000 ms (hence ≥ 7000) and returns the success; a non-429 failure
propagates unchanged with no sleep; when every attempt fails 429 the
error of the final (6th) attempt propagates after the 5 permitted
retries' sleeps. -/
theorem c6_rate_limit_retry :
    (∀ m, getRetryAfterMs
        { response := some { statusCode := some 429, status := none, retryAfter := none }
          message := m } = some 62000) ∧
    (∀ m, getRetryAfterMs
        { response := some { statusCode := some 429, status := none, retryAfter := some "soon" }
          message := m } = some 62000) ∧
    (∀ m, getRetryAfterMs
        { response := some { statusCode := some 429, status := none, retryAfter := some "5" }
          message := m } = some 7000) ∧
    (∀ (α : Type) (calls : Nat → Except XeroError α) (v : α),
      calls 0 = .error rateLimited5 → calls 1 = .ok v →
      withRetry calls = (.ok v, 7000)) ∧
    (∀ (α : Type) (calls : Nat → Except XeroError α) (err : XeroError),
      calls 0 = .error err → getRetryAfterMs err = none →
      withRetry calls = (.error err, 0)) ∧
    (∀ (α : Type) (calls : Nat → Except XeroError α),
      (∀ i, i ≤ 5 → calls i = .error rateLimited5) →
      withRetry calls = (.error rateLimited5, 35000)) := by
  have hra : getRetryAfterMs rateLimited5 = some 7000 := by with_unfolding_all rfl
  refine ⟨fun m => by with_unfolding_all rfl, fun m => by with_unfolding_all rfl,
    fun m => by with_unfolding_all rfl, ?_, ?_, ?_⟩
  · intro α calls v h0 h1
    show withRetryGo calls 0 MAX_RETRIES = (.ok v, 7000)
    rw [show MAX_RETRIES = 4 + 1 from rfl,
      withRetryGo_retry h0 hra (withRetryGo_ok h1)]
    norm_num
  · intro α calls err h0 hw
    exact withRetryGo_stop h0 hw
  · intro α calls h
    show withRetryGo calls 0 MAX_RETRIES = (.error rateLimited5, 35000)
    rw [withRetryGo_exhaust hra MAX_RETRIES 0 (fun i h1 h2 => h i (by
      simp only [MAX_RETRIES] at h2
      omega))]
    norm_num [MAX_RETRIES]

/-- Every row produced by `fetchLoop` comes from some document on some
page of the endpoint. -/
theorem mem_fetchLoop {getPage : Nat → List D}
    {docRows : D → List AccountTransactionRow} {ps : Nat} :
    ∀ {fuel page row}, row ∈ fetchLoop getPage docRows ps page fuel →
      ∃ p d, d ∈ getPage p ∧ row ∈ docRows d := by
  intro fuel
  induction fuel with
  | zero => intro page row h; simp [fetchLoop] at h
  | succ n ih =>
    intro page row h
    rw [fetchLoop] at h
    split at h
    · obtain ⟨d, hd, hr⟩ := List.mem_flatMap.mp h
      exact ⟨page, d, hd, hr⟩
    · rcases List.mem_append.mp h with h1 | h2
      · obtain ⟨d, hd, hr⟩ := List.mem_flatMap.mp h1
        exact ⟨page, d, hd, hr⟩
      · exact ih h2

/-- Every row produced by the manual-journal loop comes from some journal
on some page of the endpoint. -/
theorem mem_mjLoop_rows {getPage : Nat → List ManualJournal}
    {codes ids : Option (List String)} :
    ∀ {fuel page row}, row ∈ (mjLoop getPage codes ids page fuel).rows →
      ∃ p mj, mj ∈ getPage p ∧ row ∈ mjDocRows codes ids mj := by
  intro fuel
  induction fuel with
  | zero => intro page row h; simp [mjLoop] at h
  | succ n ih =>
    intro page row h
    rw [mjLoop] at h
    split at h
    · obtain ⟨mj, hmj, hr⟩ := List.mem_flatMap.mp h
      exact ⟨page, mj, hmj, hr⟩
    · rcases List.mem_append.mp h with h1 | h2
      · obtain ⟨mj, hmj, hr⟩ := List.mem_flatMap.mp h1
        exact ⟨page, mj, hmj, hr⟩
      · exact ih h2

/-- The shared debit/credit pattern
`debit = if x > 0 then x else null; credit = if x < 0 then |x| else null`:
for nonzero `x` exactly one side is set, positive, and the set value is
`|x|`. -/
theorem ifSign_ok {x : Rat} (hx : x ≠ 0) (Q : Rat → Prop) (hQ : Q |x|) :
    (∃ d, (if x > 0 then some x else none) = some d ∧ 0 < d ∧
      ((if x < 0 then (some |x| : Option Rat) else none) = none) ∧ Q d) ∨
    (∃ c, (if x < 0 then (some |x| : Option Rat) else none) = some c ∧ 0 < c ∧
      ((if x > 0 then some x else none) = none) ∧ Q c) := by
  rcases lt_or_gt_of_ne hx with hneg | hpos
  · right
    refine ⟨|x|, ?_, abs_pos.mpr hx, ?_, hQ⟩
    · rw [if_pos hneg]
    · rw [if_neg (not_lt.mpr hneg.le)]
  · left
    refine ⟨x, ?_, hpos, ?_, ?_⟩
    · rw [if_pos hpos]
    · rw [if_neg (not_lt.mpr hpos.le)]
    · rwa [abs_of_pos hpos] at hQ

/-- Rows built from an invoice line satisfy the row invariant. -/
theorem invoiceLineRow_ok (inv : Invoice) (li : LineItem) : rowOk (invoiceLineRow inv li) := by
  constructor
  · intro n v hn hv
    simp only [invoiceLineRow] at hn hv ⊢
    obtain rfl := Option.some.inj hn
    obtain rfl := Option.some.inj hv
    rfl
  · intro n hn hnz
    simp only [invoiceLineRow] at hn ⊢
    obtain rfl := Option.some.inj hn
    refine ifSign_ok (x := if (inv.type.getD "" == "ACCPAY") then li.lineAmount.getD 0
        else -(li.lineAmount.getD 0)) ?_ _ (Or.inl ?_)
    · split <;> simpa using hnz
    · split <;> simp

/-- Rows built from a credit-note line satisfy the row invariant. -/
theorem creditNoteLineRow_ok (cn : CreditNote) (li : LineItem) :
    rowOk (creditNoteLineRow cn li) := by
  constructor
  · intro n v hn hv
    simp only [creditNoteLineRow] at hn hv ⊢
    obtain rfl := Option.some.inj hn
    obtain rfl := Option.some.inj hv
    rfl
  · intro n hn hnz
    simp only [creditNoteLineRow] at hn ⊢
    obtain rfl := Option.some.inj hn
    refine ifSign_ok (x := if (cn.type.getD "" == "ACCRECCREDIT") then li.lineAmount.getD 0
        else -(li.lineAmount.getD 0)) ?_ _ (Or.inl ?_)
    · split <;> simpa using hnz
    · split <;> simp

/-- Rows built from a bank-transaction line item satisfy the row
invariant. -/
theorem bankLineRow_ok (bt : BankTransaction) (li : LineItem) : rowOk (bankLineRow bt li) := by
  constructor
  · intro n v hn hv
    simp only [bankLineRow] at hn hv ⊢
    obtain rfl := Option.some.inj hn
    obtain rfl := Option.some.inj hv
    rfl
  · intro n hn hnz
    simp only [bankLineRow] at hn ⊢
    obtain rfl := Option.some.inj hn
    refine ifSign_ok (x := if (bt.type.getD "" == "SPEND") then li.lineAmount.getD 0
        else -(li.lineAmount.getD 0)) ?_ _ (Or.inl ?_)
    · split <;> simpa using hnz
    · split <;> simp

/-- Rows built from a manual-journal line satisfy the row invariant. -/
theorem mjLineRow_ok (mj : ManualJournal) (ra : Option String) (line : JournalLine) :
    rowOk (mjLineRow mj ra line) := by
  constructor
  · intro n v hn hv
    simp only [mjLineRow] at hn hv ⊢
    obtain rfl := Option.some.inj hn
    obtain rfl := Option.some.inj hv
    rfl
  · intro n hn hnz
    simp only [mjLineRow] at hn ⊢
    obtain rfl := Option.some.inj hn
    exact ifSign_ok hnz _ (Or.inl rfl)

/-- The bank-account-side synthetic row satisfies the row invariant
provided the transaction's totals are consistent. -/
theorem bankSideRow_ok (bt : BankTransaction) (hwf : btWellFormed bt) :
    rowOk (bankSideRow bt) := by
  obtain ⟨hsum, hnz0⟩ := hwf
  constructor
  · intro n v hn hv
    simp only [bankSideRow] at hn hv ⊢
    obtain rfl := Option.some.inj hn
    obtain rfl := Option.some.inj hv
    exact congrArg some hsum
  · intro n hn hnz
    simp only [bankSideRow] at hn ⊢
    obtain rfl := Option.some.inj hn
    have htot : bt.total.getD 0 ≠ 0 := hnz0 hnz
    refine ifSign_ok (x := if (bt.type.getD "" == "SPEND") then -(bt.total.getD 0)
        else bt.total.getD 0) ?_ _ (Or.inr ⟨bt.total.getD 0, rfl, ?_⟩)
    · split <;> simpa using htot
    · split <;> simp

/-- Decomposition of the rows an invoice contributes. -/
theorem mem_invoiceDocRows {codes ids : Option (List String)} {inv : Invoice}
    {row : AccountTransactionRow} (h : row ∈ invoiceDocRows codes ids inv) :
    ∃ li, row = invoiceLineRow inv li := by
  obtain ⟨li, _, hr⟩ := List.mem_map.mp h
  exact ⟨li, hr.symm⟩

/-- Decomposition of the rows a credit note contributes. -/
theorem mem_creditNoteDocRows {codes ids : Option (List String)} {cn : CreditNote}
    {row : AccountTransactionRow} (h : row ∈ creditNoteDocRows codes ids cn) :
    ∃ li, row = creditNoteLineRow cn li := by
  obtain ⟨li, _, hr⟩ := List.mem_map.mp h
  exact ⟨li, hr.symm⟩

/-- Decomposition of the rows a bank transaction contributes: a per-line
row or the synthetic bank-side row. -/
theorem mem_bankDocRows {codes ids : Option (List String)} {bt : BankTransaction}
    {row : AccountTransactionRow} (h : row ∈ bankDocRows codes ids bt) :
    (∃ li, row = bankLineRow bt li) ∨ row = bankSideRow bt := by
  unfold bankDocRows at h
  rcases List.mem_append.mp h with h1 | h2
  · obtain ⟨li, _, hr⟩ := List.mem_map.mp h1
    exact Or.inl ⟨li, hr.symm⟩
  · split at h2
    · exact Or.inr (List.mem_singleton.mp h2)
    · cases h2

/-- Decomposition of the rows a manual journal contributes. -/
theorem mem_mjDocRows {codes ids : Option (List String)} {mj : ManualJournal}
    {row : AccountTransactionRow} (h : row ∈ mjDocRows codes ids mj) :
    ∃ ra line, row = mjLineRow mj ra line := by
  unfold mjDocRows at h
  obtain ⟨line, _, hr⟩ := List.mem_map.mp h
  exact ⟨_, line, hr.symm⟩

/-- C1 counterexample: the invariant "exactly one of debit/credit is
non-null whenever net ≠ 0" fails for the bank-account-side synthetic row,
because debit/credit derive from `total` while `net` is `subTotal`: a
SPEND transaction with `total = 0`, `subTotal = 5`, `totalTax = -5`
(matching the bank-account filter) emits a row with `net = 5 ≠ 0` and both
`debit` and `credit` null. -/
theorem c1_counterexample :
    (fetchBankTransactionRows c1BadPage (some ["090"]) none none).map
      (fun r => (r.net, r.debit, r.credit)) = [(some 5, none, none)] := by
  with_unfolding_all decide

/-- C1 (amended): for every row emitted by any of the four extractors,
`gross = net + vat` and, whenever `net ≠ 0`, exactly one of
`debit`/`credit` is non-null and positive with magnitude `|netToAccount|`
(equal to `|net|` for per-line rows and to `|gross|` for the
bank-account-side synthetic row) — for the bank-account-side row this
requires the transaction's totals to be consistent
(`total = subTotal + totalTax`, and `total ≠ 0` whenever
`subTotal ≠ 0`), which the code does not enforce. -/
theorem c1_row_invariant (getPageI : Nat → List Invoice) (getPageC : Nat → List CreditNote)
    (getPageB : Nat → List BankTransaction) (getPageM : Nat → List ManualJournal)
    (codes ids : Option (List String)) (st : Option String)
    (hwf : ∀ p bt, bt ∈ getPageB p → btWellFormed bt) :
    (∀ row ∈ fetchInvoiceRows getPageI codes ids st, rowOk row) ∧
    (∀ row ∈ fetchCreditNoteRows getPageC codes ids st, rowOk row) ∧
    (∀ row ∈ fetchBankTransactionRows getPageB codes ids st, rowOk row) ∧
    (∀ row ∈ (fetchManualJournalRows getPageM codes ids st).rows, rowOk row) := by
  refine ⟨?_, ?_, ?_, ?_⟩
  · intro row h
    unfold fetchInvoiceRows at h
    split at h
    · cases h
    · obtain ⟨p, inv, _, hr⟩ := mem_fetchLoop h
      obtain ⟨li, rfl⟩ := mem_invoiceDocRows hr
      exact invoiceLineRow_ok inv li
  · intro row h
    unfold fetchCreditNoteRows at h
    split at h
    · cases h
    · obtain ⟨p, cn, _, hr⟩ := mem_fetchLoop h
      obtain ⟨li, rfl⟩ := mem_creditNoteDocRows hr
      exact creditNoteLineRow_ok cn li
  · intro row h
    unfold fetchBankTransactionRows at h
    split at h
    · cases h
    · obtain ⟨p, bt, hbt, hr⟩ := mem_fetchLoop h
      rcases mem_bankDocRows hr with ⟨li, rfl⟩ | rfl
      · exact bankLineRow_ok bt li
      · exact bankSideRow_ok bt (hwf p bt hbt)
  · intro row h
    unfold fetchManualJournalRows at h
    split at h
    · cases h
    · obtain ⟨p, mj, _, hr⟩ := mem_mjLoop_rows h
      obtain ⟨ra, line, rfl⟩ := mem_mjDocRows hr
      exact mjLineRow_ok mj ra line

/-- C1 witness: the amended invariant applied at the concrete bank
endpoint of the spec's SPEND example (whose totals are consistent),
specialised to the synthetic bank-side row it emits. -/
theorem c1_row_invariant_witness : rowOk (bankSideRow c2Bt) :=
  (c1_row_invariant (fun _ => []) (fun _ => []) c2Page (fun _ => [])
      (some ["090", "400"]) none none
      (fun p bt hbt => by
        unfold c2Page at hbt
        split at hbt
        · cases List.mem_singleton.mp hbt
          constructor
          · with_unfolding_all decide
          · intro _
            with_unfolding_all decide
        · cases hbt)).2.2.1
    (bankSideRow c2Bt) (by with_unfolding_all decide)

/-- C3: a matching line with positive `lineAmount L` yields a row with
`debit = L`/`credit = null` for ACCPAY invoices (label "Purchase Invoice")
and ACCRECCREDIT credit notes (label "Sales Credit Note"), and
`credit = L`/`debit = null` for ACCREC invoices (label "Sales Invoice")
and ACCPAYCREDIT credit notes (label "Purchase Credit Note"), always with
`relatedAccount = null`; and every matching line does yield its row. -/
theorem c3_line_sign_rules :
    (∀ (inv : Invoice) (li : LineItem) (L : Rat),
      inv.type = some "ACCPAY" → li.lineAmount = some L → 0 < L →
      (invoiceLineRow inv li).debit = some L ∧ (invoiceLineRow inv li).credit = none ∧
      (invoiceLineRow inv li).source = "Purchase Invoice" ∧
      (invoiceLineRow inv li).relatedAccount = none) ∧
    (∀ (inv : Invoice) (li : LineItem) (L : Rat),
      inv.type = some "ACCREC" → li.lineAmount = some L → 0 < L →
      (invoiceLineRow inv li).credit = some L ∧ (invoiceLineRow inv li).debit = none ∧
      (invoiceLineRow inv li).source = "Sales Invoice" ∧
      (invoiceLineRow inv li).relatedAccount = none) ∧
    (∀ (cn : CreditNote) (li : LineItem) (L : Rat),
      cn.type = some "ACCRECCREDIT" → li.lineAmount = some L → 0 < L →
      (creditNoteLineRow cn li).debit = some L ∧ (creditNoteLineRow cn li).credit = none ∧
      (creditNoteLineRow cn li).source = "Sales Credit Note" ∧
      (creditNoteLineRow cn li).relatedAccount = none) ∧
    (∀ (cn : CreditNote) (li : LineItem) (L : Rat),
      cn.type = some "ACCPAYCREDIT" → li.lineAmount = some L → 0 < L →
      (creditNoteLineRow cn li).credit = some L ∧ (creditNoteLineRow cn li).debit = none ∧
      (creditNoteLineRow cn li).source = "Purchase Credit Note" ∧
      (creditNoteLineRow cn li).relatedAccount = none) ∧
    (∀ (codes ids : Option (List String)) (inv : Invoice) (li : LineItem),
      li ∈ inv.lineItems.getD [] →
      lineMatchesAccount li.accountCode li.accountID codes ids = true →
      invoiceLineRow inv li ∈ invoiceDocRows codes ids inv) ∧
    (∀ (codes ids : Option (List String)) (cn : CreditNote) (li : LineItem),
      li ∈ cn.lineItems.getD [] →
      lineMatchesAccount li.accountCode li.accountID codes ids = true →
      creditNoteLineRow cn li ∈ creditNoteDocRows codes ids cn) := by
  refine ⟨?_, ?_, ?_, ?_, ?_, ?_⟩
  · intro inv li L hty hla hL
    simp [invoiceLineRow, hty, hla, hL, hL.asymm]
  · intro inv li L hty hla hL
    simp [invoiceLineRow, hty, hla, neg_pos, neg_lt_zero, hL, hL.asymm, abs_neg,
      abs_of_pos hL]
  · intro cn li L hty hla hL
    simp [creditNoteLineRow, hty, hla, hL, hL.asymm]
  · intro cn li L hty hla hL
    simp [creditNoteLineRow, hty, hla, neg_pos, neg_lt_zero, hL, hL.asymm, abs_neg,
      abs_of_pos hL]
  · intro codes ids inv li hmem hmatch
    exact List.mem_map_of_mem _ (List.mem_filter.mpr ⟨hmem, hmatch⟩)
  · intro codes ids cn li hmem hmatch
    exact List.mem_map_of_mem _ (List.mem_filter.mpr ⟨hmem, hmatch⟩)

/-- C3 witness: the sign rules applied to a concrete positive line
(`lineAmount = 10`) under each of the four document types. -/
theorem c3_line_sign_rules_witness :
    ((invoiceLineRow c9Invoice c3Line).debit = some 10 ∧
      (invoiceLineRow c9Invoice c3Line).credit = none ∧
      (invoiceLineRow c9Invoice c3Line).source = "Purchase Invoice" ∧
      (invoiceLineRow c9Invoice c3Line).relatedAccount = none) ∧
    ((invoiceLineRow c3InvRec c3Line).credit = some 10 ∧
      (invoiceLineRow c3InvRec c3Line).debit = none ∧
      (invoiceLineRow c3InvRec c3Line).source = "Sales Invoice" ∧
      (invoiceLineRow c3InvRec c3Line).relatedAccount = none) ∧
    ((creditNoteLineRow c3CnRec c3Line).debit = some 10 ∧
      (creditNoteLineRow c3CnRec c3Line).credit = none ∧
      (creditNoteLineRow c3CnRec c3Line).source = "Sales Credit Note" ∧
      (creditNoteLineRow c3CnRec c3Line).relatedAccount = none) ∧
    ((creditNoteLineRow c3CnPay c3Line).credit = some 10 ∧
      (creditNoteLineRow c3CnPay c3Line).debit = none ∧
      (creditNoteLineRow c3CnPay c3Line).source = "Purchase Credit Note" ∧
      (creditNoteLineRow c3CnPay c3Line).relatedAccount = none) :=
  ⟨c3_line_sign_rules.1 c9Invoice c3Line 10 rfl rfl (by norm_num),
   c3_line_sign_rules.2.1 c3InvRec c3Line 10 rfl rfl (by norm_num),
   c3_line_sign_rules.2.2.1 c3CnRec c3Line 10 rfl rfl (by norm_num),
   c3_line_sign_rules.2.2.2.1 c3CnPay c3Line 10 rfl rfl (by norm_num)⟩

/-- C5: if the bank-transactions source rejects while invoices, credit
notes, accounts, and manual journals succeed, the aggregation still
returns a success envelope (`isError = false`, `error = null`) whose rows
are exactly (a permutation of) the enriched rows of the three surviving
row sources — the failed source contributes zero rows — and whose
warnings contain the string naming "Bank Transactions" with the formatted
failure reason. -/
theorem c5_partial_failure (inv cn : List AccountTransactionRow) (accts : List Account)
    (e : String) (mjr : FetchResult) :
    (listXeroAccountTransactions (.ok ()) (.ok inv) (.ok cn) (.ok accts)
        (.error e) (.ok mjr)).isError = false ∧
    (listXeroAccountTransactions (.ok ()) (.ok inv) (.ok cn) (.ok accts)
        (.error e) (.ok mjr)).error = none ∧
    ∃ out, (listXeroAccountTransactions (.ok ()) (.ok inv) (.ok cn) (.ok accts)
        (.error e) (.ok mjr)).result = some out ∧
      ("Bank Transactions endpoint failed: " ++ formatError e) ∈ out.warnings ∧
      out.rows.Perm ((inv ++ cn ++ mjr.rows).map (enrichRow (buildAccountNameMap accts))) := by
  simp only [listXeroAccountTransactions]
  refine ⟨trivial, trivial, _, rfl, ?_, ?_⟩
  · exact List.mem_cons_self _ _
  · have h := List.mergeSort_perm
      (((inv ++ cn ++ ([] ++ mjr.rows))).map (enrichRow (buildAccountNameMap accts)))
      (fun a b => decide (b.date ≤ a.date))
    simpa [sortRows] using h

/-- C8: every successful aggregation result has `hasMore = false`,
`nextOffset = null`, and rows pairwise sorted by date in descending
lexicographic (string) order; in particular input dates `2024-01-01`,
`2024-03-15`, `2024-02-10` come out `2024-03-15, 2024-02-10,
2024-01-01`. -/
theorem c8_sorted_date_descending
    (invRes cnRes : Except String (List AccountTransactionRow))
    (acctRes : Except String (List Account))
    (btRes : Except String (List AccountTransactionRow))
    (mjRes : Except String FetchResult) :
    (∃ out, (listXeroAccountTransactions (.ok ()) invRes cnRes acctRes btRes mjRes).result =
        some out ∧
      out.hasMore = false ∧ out.nextOffset = none ∧
      List.Pairwise (fun a b => b.date ≤ a.date) out.rows) ∧
    ((listXeroAccountTransactions (.ok ()) (.ok [dateRow "2024-01-01"])
        (.ok [dateRow "2024-03-15"]) (.ok []) (.ok [dateRow "2024-02-10"])
        (.ok { rows := [], truncated := false, scanned := 0 })).result.map
      (fun out => out.rows.map (fun r => r.date))) =
        some ["2024-03-15", "2024-02-10", "2024-01-01"] := by
  constructor
  · obtain ⟨res, warn, hres⟩ :
        ∃ rows warnings, (listXeroAccountTransactions (.ok ()) invRes cnRes acctRes
          btRes mjRes).result =
          some { rows := sortRows rows, hasMore := false, nextOffset := none,
                 warnings := warnings } := by
      cases invRes <;> cases cnRes <;> cases acctRes <;> cases btRes <;> cases mjRes <;>
        exact ⟨_, _, rfl⟩
    refine ⟨_, hres, rfl, rfl, ?_⟩
    have hs := @List.sorted_mergeSort AccountTransactionRow
      (fun a b : AccountTransactionRow => decide (b.date ≤ a.date))
      (fun a b c hab hbc => by
        simp only [decide_eq_true_eq] at hab hbc ⊢
        exact le_trans hbc hab)
      (fun a b => by
        simp only [Bool.or_eq_true, decide_eq_true_eq]
        exact le_total b.date a.date)
      res
    exact hs.imp (fun h => of_decide_eq_true h)
  · with_unfolding_all decide

/-- C9 counterexample: the supplied source type `""` is not among the
seven recognized values, yet the invoice extractor does not return empty
(the JS guard `sourceType && ...` treats the empty string as "no
filter"): with one ACCPAY invoice in range it emits its row. -/
theorem c9_counterexample :
    ("" ∉ ["ACCREC", "ACCPAY", "ACCRECCREDIT", "ACCPAYCREDIT", "CASHREC", "CASHPAID",
      "MANJOURNAL"]) ∧
    fetchInvoiceRows c9Page none none (some "") ≠ [] := by
  with_unfolding_all decide

/-- C9 (amended): for every supplied non-empty `sourceType` not among
ACCREC, ACCPAY, ACCRECCREDIT, ACCPAYCREDIT, CASHREC, CASHPAID,
MANJOURNAL, every extractor returns empty immediately (independently of
the endpoint contents), and the aggregation returns a success envelope
with zero rows, no warnings, and no validation error. -/
theorem c9_unrecognized_source_type (st : String)
    (hmem : st ∉ ["ACCREC", "ACCPAY", "ACCRECCREDIT", "ACCPAYCREDIT", "CASHREC", "CASHPAID",
      "MANJOURNAL"])
    (hne : st ≠ "")
    (getPageI : Nat → List Invoice) (getPageC : Nat → List CreditNote)
    (getPageB : Nat → List BankTransaction) (getPageM : Nat → List ManualJournal)
    (codes ids : Option (List String)) (accts : List Account) :
    fetchInvoiceRows getPageI codes ids (some st) = [] ∧
    fetchCreditNoteRows getPageC codes ids (some st) = [] ∧
    fetchBankTransactionRows getPageB codes ids (some st) = [] ∧
    fetchManualJournalRows getPageM codes ids (some st) =
      { rows := [], truncated := false, scanned := 0 } ∧
    listXeroAccountTransactions (.ok ()) (.ok (fetchInvoiceRows getPageI codes ids (some st)))
        (.ok (fetchCreditNoteRows getPageC codes ids (some st))) (.ok accts)
        (.ok (fetchBankTransactionRows getPageB codes ids (some st)))
        (.ok (fetchManualJournalRows getPageM codes ids (some st))) =
      { result := some { rows := [], hasMore := false, nextOffset := none, warnings := [] }
        isError := false
        error := none } := by
  simp only [List.mem_cons, List.not_mem_nil, or_false, not_or] at hmem
  obtain ⟨h1, h2, h3, h4, h5, h6, h7⟩ := hmem
  have hi : fetchInvoiceRows getPageI codes ids (some st) = [] := by
    unfold fetchInvoiceRows
    rw [if_pos]
    simp [strTruthy, hne, h1, h2]
  have hc : fetchCreditNoteRows getPageC codes ids (some st) = [] := by
    unfold fetchCreditNoteRows
    rw [if_pos]
    simp [strTruthy, hne, h3, h4]
  have hb : fetchBankTransactionRows getPageB codes ids (some st) = [] := by
    unfold fetchBankTransactionRows
    rw [if_pos]
    simp [strTruthy, hne, h5, h6]
  have hm : fetchManualJournalRows getPageM codes ids (some st) =
      { rows := [], truncated := false, scanned := 0 } := by
    unfold fetchManualJournalRows
    rw [if_pos]
    simp [strTruthy, hne, h7]
  refine ⟨hi, hc, hb, hm, ?_⟩
  rw [hi, hc, hb, hm]
  simp [listXeroAccountTransactions, sortRows]

/-- C9 witness: the amended statement applied at the unrecognized value
`"BOGUS"` over concrete endpoints. -/
theorem c9_unrecognized_source_type_witness :
    fetchInvoiceRows c9Page none none (some "BOGUS") = [] ∧
    fetchCreditNoteRows (fun _ => []) none none (some "BOGUS") = [] ∧
    fetchBankTransactionRows c2Page none none (some "BOGUS") = [] ∧
    fetchManualJournalRows mjPage51 none none (some "BOGUS") =
      { rows := [], truncated := false, scanned := 0 } ∧
    listXeroAccountTransactions (.ok ())
        (.ok (fetchInvoiceRows c9Page none none (some "BOGUS")))
        (.ok (fetchCreditNoteRows (fun _ => []) none none (some "BOGUS"))) (.ok [])
        (.ok (fetchBankTransactionRows c2Page none none (some "BOGUS")))
        (.ok (fetchManualJournalRows mjPage51 none none (some "BOGUS"))) =
      { result := some { rows := [], hasMore := false, nextOffset := none, warnings := [] }
        isError := false
        error := none } :=
  c9_unrecognized_source_type "BOGUS" (by decide) (by decide)
    c9Page (fun _ => []) c2Page mjPage51 none none []

/-- C10: for a manual journal whose first non-matching line has no account
code, every emitted row carries `relatedAccount = ""` (the empty string,
not null); the empty string survives the enrichment pass unchanged (the JS
guard `row.relatedAccount &&` is falsy on `""`); and a row's
`relatedAccount` is null exactly when every line of the journal matches
the filter. -/
theorem c10_empty_related_account :
    (∀ (codes ids : Option (List String)) (mj : ManualJournal) (l0 : JournalLine)
        (rest : List JournalLine),
      (mj.journalLines.getD []).filter
          (fun l => !lineMatchesAccount l.accountCode l.accountID codes ids) = l0 :: rest →
      l0.accountCode = none →
      ∀ row ∈ mjDocRows codes ids mj, row.relatedAccount = some "") ∧
    (∀ (get : String → Option String) (row : AccountTransactionRow),
      row.relatedAccount = some "" → (enrichRow get row).relatedAccount = some "") ∧
    (∀ (codes ids : Option (List String)) (mj : ManualJournal) (row : AccountTransactionRow),
      row ∈ mjDocRows codes ids mj →
      (row.relatedAccount = none ↔
        ∀ l ∈ mj.journalLines.getD [],
          lineMatchesAccount l.accountCode l.accountID codes ids = true)) := by
  refine ⟨?_, ?_, ?_⟩
  · intro codes ids mj l0 rest hfilter hl0 row hrow
    simp only [mjDocRows] at hrow
    rw [hfilter] at hrow
    obtain ⟨line, _, hr⟩ := List.mem_map.mp hrow
    rw [← hr]
    simp only [mjLineRow, hl0, Option.getD_none]
    with_unfolding_all rfl
  · intro get row hra
    unfold enrichRow
    have h1 : (if strTruthy row.accountCode && !strTruthy row.accountName then
        { row with accountName := get (row.accountCode.getD "") }
      else row).relatedAccount = some "" := by
      split <;> exact hra
    rw [if_neg]
    · exact h1
    · rw [h1]
      simp [strTruthy]
  · intro codes ids mj row hrow
    simp only [mjDocRows] at hrow
    obtain ⟨line, _, hr⟩ := List.mem_map.mp hrow
    rw [← hr]
    rcases hfo : (mj.journalLines.getD []).filter
        (fun l => !lineMatchesAccount l.accountCode l.accountID codes ids) with _ | ⟨l0, rest⟩
    · rw [hfo]
      simp only [mjLineRow]
      rw [List.filter_eq_nil_iff] at hfo
      simp only [true_iff]
      intro l hl
      have := hfo l hl
      simpa using this
    · rw [hfo]
      simp only [mjLineRow]
      constructor
      · intro h
        cases h
      · intro h
        exfalso
        have hl0 : l0 ∈ (mj.journalLines.getD []).filter
            (fun l => !lineMatchesAccount l.accountCode l.accountID codes ids) := by
          rw [hfo]
          exact List.mem_cons_self _ _
        obtain ⟨hmem, hnm⟩ := List.mem_filter.mp hl0
        rw [h l0 hmem] at hnm
        cases hnm

/-- C10 witness: the empty-string related account on the concrete journal
[c10Mj] (filter `["200"]`; the other side's line has no code), surviving
enrichment. -/
theorem c10_empty_related_account_witness :
    (mjLineRow c10Mj (some "") c10MatchLine).relatedAccount = some "" ∧
    (enrichRow (buildAccountNameMap [])
      (mjLineRow c10Mj (some "") c10MatchLine)).relatedAccount = some "" := by
  have h := c10_empty_related_account.1 (some ["200"]) none c10Mj c10OtherLine []
    (by with_unfolding_all decide) rfl (mjLineRow c10Mj (some "") c10MatchLine)
    (by with_unfolding_all decide)
  exact ⟨h, c10_empty_related_account.2.1 _ _ h⟩

/-- C6 witness: the retry theorem applied at concrete call sequences. -/
theorem c6_rate_limit_retry_witness :
    withRetry (fun n => if n = 0 then .error rateLimited5 else .ok (42 : Nat)) = (.ok 42, 7000) ∧
    withRetry (fun _ => (.error plainFailure : Except XeroError Nat)) = (.error plainFailure, 0) ∧
    withRetry (fun _ => (.error rateLimited5 : Except XeroError Nat)) =
      (.error rateLimited5, 35000) :=
  ⟨c6_rate_limit_retry.2.2.2.1 Nat _ 42 rfl rfl,
   c6_rate_limit_retry.2.2.2.2.1 Nat _ plainFailure rfl rfl,
   c6_rate_limit_retry.2.2.2.2.2 Nat _ (fun _ _ => rfl)⟩

end XeroMcp
